import Mathlib

/-!
Verification of the o2token authorization-code flow orchestrator.

Shallow embedding of the Go sources: `appconfig.go` (configuration assembly
and validation), `oidc.go` (callback handling, token redemption, refresh and
userinfo sub-flows), `o2token.go` (main dispatch and soft exit),
`server.go` (error reporting), and `helpers/helpers.go` (base64url
conversion).  Handlers are modelled as pure functions from their request
data plus oracles for the outcomes of outbound HTTP calls to the list of
observable events they perform, in program order.
-/

namespace O2Token

/-- Go type from helpers/helpers.go: an arbitrary decoded JSON object
(map\[string\]interface\x7b\x7d).  No claim inspects its contents, so it is
modelled as an association list of keys to raw value text. -/
structure Unstruct where
  pairs : List (String × String)
deriving DecidableEq, Repr

/-- Go struct from src/oidc.go lines 13-21.  Field defaults are the Go zero
values, so the empty literal is the Go `OAuthAccessResponse\x7b\x7d`. -/
structure OAuthAccessResponse where
  TokenType : String := ""
  Scope : String := ""
  ExpiresIn : Int := 0
  AccessToken : String := ""
  RefreshToken : String := ""
  IDToken : String := ""
  UserInfo : Option Unstruct := none
deriving DecidableEq, Repr

/-- Go struct from src/appconfig.go lines 14-32, plus the ClientCredFlow
field that src/o2token.go line 24 reads; the field is absent from the
struct revision under src/appconfig.go, so the configuration assembly
below leaves it at the Go zero value false. -/
structure AppConfig where
  AuthEndpoint : String
  CallbackPath : String
  ClientID : String
  ClientSecret : String
  CodeChallenge : String
  CodeVerifier : String
  MetadataEndpoint : String
  NoBrowser : Bool
  Pkce : Bool
  Port : Nat
  RefreshToken : String
  Scope : String
  State : String
  TokenEndpoint : String
  UserInfoEndpoint : String
  UserInfo : Bool
  Verbose : Bool
  ClientCredFlow : Bool
deriving DecidableEq, Repr

/-- Observable actions of the program, in the order the Go code performs
them.  `respondError status label err` is the `w.WriteHeader(status)` plus
`w.Write` of the message "ERROR: label: err" done by reportErrorAndSoftExit;
`respondRedirect` is `http.Redirect`; `exchangeCall` is an invocation of
redeemTokens (src/oidc.go line 194) with the given form parameters;
`softExitCall` is a call of softExit (src/o2token.go line 43) with the raw
requested code. -/
inductive Event where
  | respondError (status : Int) (label : String) (err : String)
  | respondRedirect (location : String)
  | errorLog (msg : String)
  | warnLog (msg : String)
  | exchangeCall (params : List (String × String))
  | userInfoCall (token : String)
  | printTokensCall (tokens : OAuthAccessResponse)
  | softExitCall (code : Int)
  | serverStart
  | clientCredFlowRun
deriving DecidableEq, Repr

/-- Outcome of the outbound POST done inside redeemTokens: either a
transport-level failure of `httpClient.Do`, or a response whose body is
`body` and whose `json.Unmarshal` into OAuthAccessResponse gives
`decoded` (`none` models a JSON decode error). -/
inductive ExchangeOutcome where
  | transportError (msg : String)
  | response (body : String) (decoded : Option OAuthAccessResponse)
deriving DecidableEq, Repr

/-- From src/o2token.go lines 43-54: the exit code that softExit(code)
records in the process-wide exitCode cell (clamped to \[0,125]). -/
def softExitRecord (code : Int) : Int :=
  if code > 125 ∨ code < 0 then 125 else code

/-- From src/o2token.go lines 47-50: whether softExit(code) prints the
"Replacing desired exit code ... with 125" diagnostic, given the verbose
flag. -/
def softExitLogsReplacement (verbose : Bool) (code : Int) : Bool :=
  decide (code > 125 ∨ code < 0) && verbose

/-- The message text "ERROR: label: err" built by reportErrorAndSoftExit
(src/server.go line 91). -/
def errMsgFor (label err : String) : String :=
  "ERROR: " ++ label ++ ": " ++ err

/-- From src/server.go lines 90-99: writes the error into the HTTP response
(when a response writer is present), logs it, then calls softExit with the
same code. -/
def reportErrorAndSoftExit (label err : String) (code : Int) (wPresent : Bool) :
    List Event :=
  (if wPresent then [Event.respondError code label err] else [])
    ++ [Event.errorLog (errMsgFor label err), Event.softExitCall code]

/-- The redirect URI "http://localhost:<port><callback-path>" built in
src/oidc.go lines 64 and 176. -/
def redirectUri (cfg : AppConfig) : String :=
  "http://localhost:" ++ toString cfg.Port ++ cfg.CallbackPath

/-- Go url.QueryEscape restricted to ASCII input (Go works on the UTF-8
bytes; on ASCII text the two agree): unreserved bytes are kept, space
becomes '+', everything else is percent-encoded. -/
def queryEscapeChar (c : Char) : List Char :=
  if c.isAlphanum ∨ c = '-' ∨ c = '_' ∨ c = '.' ∨ c = '~' then [c]
  else if c = ' ' then ['+']
  else
    ['%', "0123456789ABCDEF".data.getD (c.toNat / 16 % 16) '0',
     "0123456789ABCDEF".data.getD (c.toNat % 16) '0']

/-- Go url.QueryEscape as used in src/oidc.go line 65 (ASCII model). -/
def QueryEscape (s : String) : String :=
  String.mk (s.data.flatMap queryEscapeChar)

/-- The query parameters of the authorization redirect URL built by
startFlow, in order (src/oidc.go line 66).  Modelled from the spec: the
PKCE-enabled revision of startFlow is not under src (src/appconfig.go does
prepare CodeChallenge/CodeVerifier, but the oidc.go revision under src
predates PKCE), so the trailing code_challenge and
code_challenge_method=S256 parameters appended when PKCE is enabled follow
the spec's words. -/
def startFlowQueryParams (cfg : AppConfig) : List (String × String) :=
  [("client_id", cfg.ClientID),
   ("redirect_uri", redirectUri cfg),
   ("scope", QueryEscape cfg.Scope),
   ("response_type", "code"),
   ("state", cfg.State)]
  ++ (if cfg.Pkce then
        [("code_challenge", cfg.CodeChallenge), ("code_challenge_method", "S256")]
      else [])

/-- The full authorization redirect URL startFlow sends the browser to
(src/oidc.go lines 62-71): the authorization endpoint followed by the
&-joined key=value query parameters. -/
def startFlowUrl (cfg : AppConfig) : String :=
  cfg.AuthEndpoint ++ "?"
    ++ String.intercalate "&" ((startFlowQueryParams cfg).map (fun p => p.1 ++ "=" ++ p.2))

/-- Form parameters of the authorization_code grant built by
redeemTokensWithCode (src/oidc.go lines 173-182).  Modelled from the spec:
the code_verifier parameter added when PKCE is enabled follows the spec's
words, because the PKCE-enabled revision of redeemTokensWithCode is not
under src (only the configuration side in src/appconfig.go is). -/
def redeemTokensWithCodeParams (cfg : AppConfig) (code : String) :
    List (String × String) :=
  [("grant_type", "authorization_code"),
   ("redirect_uri", redirectUri cfg),
   ("client_id", cfg.ClientID),
   ("client_secret", cfg.ClientSecret),
   ("code", code)]
  ++ (if cfg.Pkce then [("code_verifier", cfg.CodeVerifier)] else [])

/-- Form parameters of the refresh_token grant built by
redeemTokensWithRefreshToken (src/oidc.go lines 184-192). -/
def redeemTokensWithRefreshTokenParams (cfg : AppConfig) (token : String) :
    List (String × String) :=
  [("grant_type", "refresh_token"),
   ("client_id", cfg.ClientID),
   ("client_secret", cfg.ClientSecret),
   ("refresh_token", token)]

/-- From src/oidc.go lines 194-226: given the outcome of the POST to the
token endpoint, redeemTokens returns the Go pair (tokens, error); the error
is modelled as an optional message.  A transport failure and a JSON decode
failure return the empty response and an error; a decoded response with an
empty access_token returns the empty response and an error carrying the raw
response body; otherwise the decoded tokens are returned with no error. -/
def redeemTokens (outcome : ExchangeOutcome) : OAuthAccessResponse × Option String :=
  match outcome with
  | .transportError m =>
      ({}, some ("could not send HTTP request to redeem tokens: " ++ m))
  | .response _ none =>
      ({}, some "could not parse JSON response for redeemed tokens")
  | .response body (some t) =>
      if t.AccessToken = "" then
        ({}, some ("no access token received, raw response: " ++ body))
      else (t, none)

/-- The userinfo step shared by src/oidc.go lines 105-111 and 134-140: when
the UserInfo flag is set, fetchUserInfo is called with the access token and
its result is assigned to tokens.UserInfo; on failure the error is logged
as a warning ("WARNING: ..." on stderr) and the flow continues with a nil
UserInfo.  Returns the updated token set and the events performed. -/
def fetchUserInfoStep (cfg : AppConfig) (tokens : OAuthAccessResponse)
    (ui : Except String Unstruct) : OAuthAccessResponse × List Event :=
  if cfg.UserInfo then
    match ui with
    | .ok v => ({ tokens with UserInfo := some v }, [Event.userInfoCall tokens.AccessToken])
    | .error m =>
        ({ tokens with UserInfo := none },
         [Event.userInfoCall tokens.AccessToken, Event.warnLog ("WARNING: " ++ m)])
  else (tokens, [])

/-- From src/oidc.go lines 73-126: the callback handler, as the list of
events it performs.  `parseOk` is whether r.ParseForm succeeded; `code` and
`st` are the values of the code and state form parameters (Go FormValue
returns "" for an absent parameter); `exch` is the outcome of the token
endpoint POST should it be reached; `ui` the outcome of fetchUserInfo
should it be reached.  printTokens is modelled as always succeeding:
json.MarshalIndent cannot fail on this struct (strings, an int and a
JSON-decoded map). -/
def oauth2CodeCallback (cfg : AppConfig) (parseOk : Bool) (code st : String)
    (exch : ExchangeOutcome) (ui : Except String Unstruct) : List Event :=
  if parseOk = false then
    reportErrorAndSoftExit "could not parse query in callback" "parse error" 400 true
  else if code = "" then
    reportErrorAndSoftExit "oath2 flow error" "missing 'code' parameter" 400 true
  else if st ≠ cfg.State then
    reportErrorAndSoftExit "unexpected state parameter value in callback"
      ("expected: " ++ cfg.State ++ ", got: " ++ st) 400 true
  else
    Event.exchangeCall (redeemTokensWithCodeParams cfg code) ::
    match redeemTokens exch with
    | (_, some e) => reportErrorAndSoftExit "oath2 flow error" e 500 true
    | (tokens, none) =>
        let step := fetchUserInfoStep cfg tokens ui
        step.2 ++ [Event.respondRedirect "/success.html",
                   Event.printTokensCall step.1, Event.softExitCall 0]

/-- From src/oidc.go lines 128-149: the refresh sub-flow.  Returns the Go
error (none on success) and the events performed.  As in the callback
model, printTokens is total. -/
def refreshTokens (cfg : AppConfig) (token : String) (exch : ExchangeOutcome)
    (ui : Except String Unstruct) : Option String × List Event :=
  match redeemTokens exch with
  | (_, some e) =>
      (some ("could not redeem tokens: " ++ e),
       [Event.exchangeCall (redeemTokensWithRefreshTokenParams cfg token)])
  | (tokens, none) =>
      let step := fetchUserInfoStep cfg tokens ui
      (none,
       Event.exchangeCall (redeemTokensWithRefreshTokenParams cfg token) ::
         (step.2 ++ [Event.printTokensCall step.1]))

/-- The process exit code after a trace: the exitCode cell starts at the Go
zero value 0, each softExit(code) call stores the clamped code, and the
deferred os.Exit in main (src/o2token.go lines 12-14) uses the final cell
value. -/
def finalExitCode (tr : List Event) : Int :=
  tr.foldl (fun acc e => match e with | .softExitCall c => softExitRecord c | _ => acc) 0

/-- From src/o2token.go lines 11-39: the dispatch in main after a
successful configuration load, as (process exit code, events).  The
client-credentials branch calls clientCredFlow, whose body is absent from
src; it is modelled as an abstract run with outcome `ccOk` (it is
unreachable from configurations built by initializeAppConfig, which never
enables ClientCredFlow).  A non-empty refresh token runs refreshTokens and
exits 1 on its error, else falls through to the deferred exit with the
untouched exitCode cell (0).  Otherwise serveAuthCodeFlow starts the local
callback server; the run is modelled as serving the single callback
request described by the remaining arguments. -/
def mainRun (cfg : AppConfig) (parseOk : Bool) (code st : String)
    (exch : ExchangeOutcome) (ui : Except String Unstruct) (ccOk : Bool) :
    Int × List Event :=
  if cfg.ClientCredFlow then
    ((if ccOk then 0 else 1), [Event.clientCredFlowRun])
  else if cfg.RefreshToken ≠ "" then
    match refreshTokens cfg cfg.RefreshToken exch ui with
    | (some e, tr) => (1, tr ++ [Event.errorLog ("ERROR: token refresh failed: " ++ e)])
    | (none, tr) => (0, tr)
  else
    let tr := oauth2CodeCallback cfg parseOk code st exch ui
    (finalExitCode tr, Event.serverStart :: tr)

/-- The flag/environment-resolved inputs that initializeAppConfig
(src/appconfig.go lines 34-151) starts from, together with the results of
its outbound calls: the metadata-document fields fetchMetadataDocument
would return, the random string genRandStr would produce, and the PKCE
generator results.  genPkceCodeVerifier and computePkceCodeChallenge are
called at src/appconfig.go lines 70 and 74 but their bodies are absent
from src; they enter the model only as these oracle inputs. -/
structure ConfigInputs where
  authEndpoint : String
  callbackPath : String
  clientID : String
  clientSecretFlag : String
  clientSecretEnv : String
  codeChallenge : String
  codeVerifier : String
  metadataEndpoint : String
  noBrowser : Bool
  pkce : Bool
  port : Nat
  tokenEndpoint : String
  refreshToken : String
  state : String
  scope : String
  verbose : Bool
  userInfo : Bool
  userInfoEndpoint : String
  metaAuthEndpoint : String
  metaTokenEndpoint : String
  metaUserInfoEndpoint : String
  randState : String
  randPkceVerifier : String
  challengeOf : String → String

/-- The validation chain of src/appconfig.go lines 120-134 (the Go byte
indexing of CallbackPath\[0] is char indexing here; the paths involved are
ASCII). -/
def validateConfig (c : AppConfig) : Option String :=
  if c.AuthEndpoint = "" ∨ c.TokenEndpoint = "" then
    some "authorization/token endpoints not configured"
  else if c.Port = 0 ∨ c.Port > 65535 then
    some "invalid port configured"
  else if c.CallbackPath.length < 2 ∨ c.CallbackPath.data.head? ≠ some '/' then
    some "invalid callback path configured"
  else if c.ClientID = "" then
    some "client ID not configured"
  else if c.UserInfo ∧ c.UserInfoEndpoint = "" then
    some "missing UserInfoEndpoint configuration"
  else if c.State = "" then
    some "empty state string configured"
  else none

/-- Go strings.ReplaceAll(s, ",", " ") of src/appconfig.go line 98, a
character map for single-character pattern and replacement. -/
def fixScopeString (s : String) : String :=
  String.mk (s.data.map (fun c => if c = ',' then ' ' else c))

/-- From src/appconfig.go lines 34-151: assembles the AppConfig from the
resolved inputs (secret/state/PKCE defaulting, metadata-based endpoint
derivation, scope normalization) and returns it with the validation
error.  ClientCredFlow is left false: the struct revision under
src/appconfig.go has no such field, so a built configuration carries the
Go zero value. -/
def initializeAppConfig (i : ConfigInputs) : AppConfig × Option String :=
  let clientSecret := if i.clientSecretFlag = "" then i.clientSecretEnv else i.clientSecretFlag
  let state := if i.state = "" then i.randState else i.state
  let codeVerifier :=
    if i.pkce then (if i.codeVerifier = "" then i.randPkceVerifier else i.codeVerifier)
    else i.codeVerifier
  let codeChallenge :=
    if i.pkce then (if i.codeChallenge = "" then i.challengeOf codeVerifier else i.codeChallenge)
    else i.codeChallenge
  let authEndpoint :=
    if i.metadataEndpoint ≠ "" ∧ i.authEndpoint = "" then i.metaAuthEndpoint else i.authEndpoint
  let tokenEndpoint :=
    if i.metadataEndpoint ≠ "" ∧ i.tokenEndpoint = "" then i.metaTokenEndpoint else i.tokenEndpoint
  let userInfoEndpoint :=
    if i.metadataEndpoint ≠ "" ∧ i.userInfoEndpoint = "" then i.metaUserInfoEndpoint
    else i.userInfoEndpoint
  let cfg : AppConfig :=
    { AuthEndpoint := authEndpoint
      CallbackPath := i.callbackPath
      ClientID := i.clientID
      ClientSecret := clientSecret
      CodeChallenge := codeChallenge
      CodeVerifier := codeVerifier
      MetadataEndpoint := i.metadataEndpoint
      NoBrowser := i.noBrowser
      Pkce := i.pkce
      Port := i.port
      RefreshToken := i.refreshToken
      Scope := fixScopeString i.scope
      State := state
      TokenEndpoint := tokenEndpoint
      UserInfoEndpoint := userInfoEndpoint
      UserInfo := i.userInfo
      Verbose := i.verbose
      ClientCredFlow := false }
  (cfg, validateConfig cfg)

/-- Whether an event is an invocation of redeemTokens. -/
def isExchangeCall : Event → Bool
  | .exchangeCall _ => true
  | _ => false

/-- Whether an event writes an HTTP response (error body or redirect). -/
def isRespondEvent : Event → Bool
  | .respondError _ _ _ => true
  | .respondRedirect _ => true
  | _ => false

/-- Whether an event is a softExit request. -/
def isSoftExitEvent : Event → Bool
  | .softExitCall _ => true
  | _ => false

/-- Whether an event prints the token set. -/
def isPrintTokensEvent : Event → Bool
  | .printTokensCall _ => true
  | _ => false

/-- Whether an event reports the state-mismatch error of src/oidc.go lines
91-96 into the HTTP response. -/
def isStateMismatchReport : Event → Bool
  | .respondError _ label _ => label = "unexpected state parameter value in callback"
  | _ => false

/-- Scans a trace left to right: true when every softExit event is strictly
preceded by some HTTP response write.  `seen` records whether a response
write has occurred so far. -/
def respondBeforeExit : List Event → Bool → Bool
  | [], _ => true
  | e :: rest, seen =>
    if isSoftExitEvent e then seen && respondBeforeExit rest seen
    else respondBeforeExit rest (seen || isRespondEvent e)

/-! ## The base64 helpers (src/helpers/helpers.go lines 55-73)

Go strings are byte sequences; the helpers act byte by byte, modelled as
lists of characters. -/

/-- The first pass of Base64ToBase64Url: strings.ReplaceAll(input, "/", "_"). -/
def repSlash (c : Char) : Char := if c = '/' then '_' else c

/-- The second pass of Base64ToBase64Url: strings.ReplaceAll(result, "+", "-"). -/
def repPlus (c : Char) : Char := if c = '+' then '-' else c

/-- The first pass of Base64UrlToBase64: strings.ReplaceAll(input, "_", "/"). -/
def repUnderscore (c : Char) : Char := if c = '_' then '/' else c

/-- The second pass of Base64UrlToBase64: strings.ReplaceAll(result, "-", "+"). -/
def repDash (c : Char) : Char := if c = '-' then '+' else c

/-- From src/helpers/helpers.go lines 68-73: replace '/' by '_', '+' by '-'
and delete every '='. -/
def Base64ToBase64Url (s : List Char) : List Char :=
  (((s.map repSlash).map repPlus).filter (fun c => c != '='))

/-- The padding Base64UrlToBase64 appends for a given remainder of the
length modulo 4 (src/helpers/helpers.go lines 59-64). -/
def padFor (r : List Char) : List Char :=
  if r.length % 4 = 2 then ['=', '=']
  else if r.length % 4 = 3 then ['=']
  else []

/-- From src/helpers/helpers.go lines 55-66: replace '_' by '/', '-' by '+'
and re-append '=' padding according to the length modulo 4. -/
def Base64UrlToBase64 (s : List Char) : List Char :=
  ((s.map repUnderscore).map repDash) ++ padFor ((s.map repUnderscore).map repDash)

/-- Membership in the standard base64 alphabet (RFC 4648, without the
padding character). -/
def isB64Char (c : Char) : Bool :=
  ('A' ≤ c && c ≤ 'Z') || ('a' ≤ c && c ≤ 'z') || ('0' ≤ c && c ≤ '9')
    || c == '+' || c == '/'

/-- A well-formed padded standard base64 string: length a multiple of 4,
a body over the base64 alphabet, then at most two trailing '='. -/
def isWellFormedB64 (s : List Char) : Bool :=
  (s.takeWhile (fun c => c != '=')).all isB64Char
    && (s.dropWhile (fun c => c != '=')).all (fun c => c == '=')
    && decide ((s.dropWhile (fun c => c != '=')).length ≤ 2)
    && decide (s.length % 4 = 0)

/-- A concrete configuration (PKCE enabled) used for concrete evaluations. -/
def sampleConfig : AppConfig :=
  { AuthEndpoint := "https://idp.example/authorize"
    CallbackPath := "/cb"
    ClientID := "abc"
    ClientSecret := "s3cr3t"
    CodeChallenge := "chlg"
    CodeVerifier := "vrfy"
    MetadataEndpoint := ""
    NoBrowser := true
    Pkce := true
    Port := 9000
    RefreshToken := ""
    Scope := "openid offline_access"
    State := "xyz"
    TokenEndpoint := "https://idp.example/token"
    UserInfoEndpoint := ""
    UserInfo := false
    Verbose := false
    ClientCredFlow := false }

/-- C6: softExit(C) records C as the eventual process exit code when
0 ≤ C ≤ 125 and records 125 otherwise; in particular softExit(42) records
42 while softExit(200) and softExit(-1) record 125, and the replacement of
an out-of-range code is logged exactly when verbose diagnostics are
enabled. -/
theorem C6_soft_exit_clamp (c : Int) (v : Bool) :
    softExitRecord c = (if 0 ≤ c ∧ c ≤ 125 then c else 125) ∧
    softExitRecord 42 = 42 ∧
    softExitRecord 200 = 125 ∧
    softExitRecord (-1) = 125 ∧
    (softExitLogsReplacement v c = true ↔ ((c > 125 ∨ c < 0) ∧ v = true)) := by
  refine ⟨?_, by decide, by decide, by decide, ?_⟩
  · unfold softExitRecord
    split_ifs <;> omega
  · unfold softExitLogsReplacement
    simp

/-- C4: a token-endpoint response whose body decodes but yields an empty
access_token makes redeemTokens fail, returning the empty
OAuthAccessResponse together with an error carrying the raw body; and
redeemTokens succeeds exactly on decoded responses whose access_token is
non-empty, returning the decoded tokens. -/
theorem C4_empty_access_token_failure (body : String) (t : OAuthAccessResponse)
    (hempty : t.AccessToken = "") :
    redeemTokens (.response body (some t)) =
      ({}, some ("no access token received, raw response: " ++ body)) ∧
    ∀ out : ExchangeOutcome, (redeemTokens out).2 = none ↔
      ∃ b tok, out = .response b (some tok) ∧ tok.AccessToken ≠ "" ∧
        redeemTokens out = (tok, none) := by
  constructor
  · simp [redeemTokens, hempty]
  · intro out
    constructor
    · intro h
      match out with
      | .transportError m => simp [redeemTokens] at h
      | .response b none => simp [redeemTokens] at h
      | .response b (some tok) =>
          by_cases htok : tok.AccessToken = ""
          · simp [redeemTokens, htok] at h
          · exact ⟨b, tok, rfl, htok, by simp [redeemTokens, htok]⟩
    · rintro ⟨b, tok, rfl, htok, -⟩
      simp [redeemTokens, htok]

/-- Concrete run of C4: an HTTP-200-shaped body decoding to an empty
access_token is rejected with the raw body attached. -/
theorem C4_witness :
    (({} : OAuthAccessResponse)).AccessToken = "" ∧
    redeemTokens (.response "\x7b\"access_token\":\"\",\"error\":\"invalid_grant\"\x7d" (some {})) =
      ({}, some ("no access token received, raw response: "
        ++ "\x7b\"access_token\":\"\",\"error\":\"invalid_grant\"\x7d")) :=
  ⟨rfl,
   (C4_empty_access_token_failure "\x7b\"access_token\":\"\",\"error\":\"invalid_grant\"\x7d" {} rfl).1⟩

/-- C2: with PKCE enabled, the authorization redirect URL built by
startFlow carries the query parameters code_challenge (the configured
challenge value) and code_challenge_method=S256, in addition to client_id,
redirect_uri, scope, response_type=code and state. -/
theorem C2_pkce_authorization_url (cfg : AppConfig) (hp : cfg.Pkce = true) :
    ("code_challenge", cfg.CodeChallenge) ∈ startFlowQueryParams cfg ∧
    ("code_challenge_method", "S256") ∈ startFlowQueryParams cfg ∧
    ("client_id", cfg.ClientID) ∈ startFlowQueryParams cfg ∧
    ("redirect_uri", redirectUri cfg) ∈ startFlowQueryParams cfg ∧
    ("scope", QueryEscape cfg.Scope) ∈ startFlowQueryParams cfg ∧
    ("response_type", "code") ∈ startFlowQueryParams cfg ∧
    ("state", cfg.State) ∈ startFlowQueryParams cfg ∧
    startFlowUrl cfg = cfg.AuthEndpoint ++ "?" ++
      String.intercalate "&"
        ((startFlowQueryParams cfg).map (fun p => p.1 ++ "=" ++ p.2)) := by
  refine ⟨?_, ?_, ?_, ?_, ?_, ?_, ?_, rfl⟩ <;> simp [startFlowQueryParams, hp]

/-- Concrete run of C2 on a PKCE-enabled configuration. -/
theorem C2_witness :
    sampleConfig.Pkce = true ∧
    ("code_challenge", sampleConfig.CodeChallenge) ∈ startFlowQueryParams sampleConfig ∧
    ("code_challenge_method", "S256") ∈ startFlowQueryParams sampleConfig :=
  ⟨rfl, (C2_pkce_authorization_url sampleConfig rfl).1,
    (C2_pkce_authorization_url sampleConfig rfl).2.1⟩

/-- C3: with PKCE enabled, the authorization_code grant built by
redeemTokensWithCode carries code_verifier (the stored verifier) together
with grant_type=authorization_code, redirect_uri, client_id, client_secret
and code. -/
theorem C3_pkce_code_verifier_param (cfg : AppConfig) (code : String)
    (hp : cfg.Pkce = true) :
    ("code_verifier", cfg.CodeVerifier) ∈ redeemTokensWithCodeParams cfg code ∧
    ("grant_type", "authorization_code") ∈ redeemTokensWithCodeParams cfg code ∧
    ("redirect_uri", redirectUri cfg) ∈ redeemTokensWithCodeParams cfg code ∧
    ("client_id", cfg.ClientID) ∈ redeemTokensWithCodeParams cfg code ∧
    ("client_secret", cfg.ClientSecret) ∈ redeemTokensWithCodeParams cfg code ∧
    ("code", code) ∈ redeemTokensWithCodeParams cfg code := by
  refine ⟨?_, ?_, ?_, ?_, ?_, ?_⟩ <;> simp [redeemTokensWithCodeParams, hp]

/-- Concrete run of C3 on a PKCE-enabled configuration. -/
theorem C3_witness :
    sampleConfig.Pkce = true ∧
    ("code_verifier", sampleConfig.CodeVerifier) ∈
      redeemTokensWithCodeParams sampleConfig "XYZ123" ∧
    ("grant_type", "authorization_code") ∈
      redeemTokensWithCodeParams sampleConfig "XYZ123" :=
  ⟨rfl, (C3_pkce_code_verifier_param sampleConfig "XYZ123" rfl).1,
    (C3_pkce_code_verifier_param sampleConfig "XYZ123" rfl).2.1⟩

/-- C1 counterexample: a callback whose parameters parse and whose state
("bad") differs from the configured state ("xyz") but which carries no
code parameter is answered with the missing-code error, not the
state-mismatch error, refuting "reports the state-mismatch error ...
regardless of whether a code parameter is present or absent". -/
theorem C1_counterexample :
    "bad" ≠ sampleConfig.State ∧
    (oauth2CodeCallback sampleConfig true "" "bad"
        (.transportError "") (.error "")).any isStateMismatchReport = false := by
  exact ⟨by decide, by rfl⟩

/-- C1 as amended: on a parsed callback whose state differs from the
configured state, oauth2CodeCallback never invokes redeemTokens and
requests soft exit with the non-zero code 400 (recorded as the non-zero
125); it reports the state-mismatch error when a code parameter is
present, and the missing-code error when the code parameter is absent. -/
theorem C1_state_mismatch_amended (cfg : AppConfig) (code st : String)
    (exch : ExchangeOutcome) (ui : Except String Unstruct)
    (hstate : st ≠ cfg.State) :
    (∀ e ∈ oauth2CodeCallback cfg true code st exch ui, isExchangeCall e = false) ∧
    Event.softExitCall 400 ∈ oauth2CodeCallback cfg true code st exch ui ∧
    softExitRecord 400 ≠ 0 ∧
    (code ≠ "" →
      Event.respondError 400 "unexpected state parameter value in callback"
          ("expected: " ++ cfg.State ++ ", got: " ++ st)
        ∈ oauth2CodeCallback cfg true code st exch ui) ∧
    (code = "" →
      Event.respondError 400 "oath2 flow error" "missing 'code' parameter"
        ∈ oauth2CodeCallback cfg true code st exch ui) := by
  by_cases hcode : code = ""
  · subst hcode
    simp [oauth2CodeCallback, reportErrorAndSoftExit, isExchangeCall, softExitRecord]
  · simp [oauth2CodeCallback, reportErrorAndSoftExit, hcode, hstate, isExchangeCall,
      softExitRecord]

/-- Concrete run of the amended C1: state "bad" against configured "xyz",
with a code present. -/
theorem C1_witness :
    "bad" ≠ sampleConfig.State ∧
    Event.respondError 400 "unexpected state parameter value in callback"
        ("expected: " ++ sampleConfig.State ++ ", got: " ++ "bad")
      ∈ oauth2CodeCallback sampleConfig true "XYZ123" "bad"
          (.transportError "") (.error "") :=
  ⟨by decide,
   (C1_state_mismatch_amended sampleConfig "XYZ123" "bad" (.transportError "")
      (.error "") (by decide)).2.2.2.1 (by decide)⟩

/-- C7: in every branch of callback handling, the HTTP response for the
triggering request (error body or success redirect) is written strictly
before soft exit is requested, both through oauth2CodeCallback and through
reportErrorAndSoftExit itself (with a response writer present). -/
theorem C7_response_before_soft_exit (cfg : AppConfig) (parseOk : Bool)
    (code st : String) (exch : ExchangeOutcome) (ui : Except String Unstruct) :
    respondBeforeExit (oauth2CodeCallback cfg parseOk code st exch ui) false = true ∧
    ∀ (label err : String) (c : Int),
      respondBeforeExit (reportErrorAndSoftExit label err c true) false = true := by
  constructor
  · unfold oauth2CodeCallback reportErrorAndSoftExit fetchUserInfoStep
    repeat' split
    all_goals
      simp_all [respondBeforeExit, isSoftExitEvent, isRespondEvent]
  · intro label err c
    simp [reportErrorAndSoftExit, respondBeforeExit, isSoftExitEvent, isRespondEvent]

/-- C9: a configuration that initializeAppConfig returns without error has
a non-empty State, and hence a parsed callback carrying a code but no
state parameter (extracted state "") is answered with the state-mismatch
error and never reaches redeemTokens. -/
theorem C9_nonempty_state_guards_callback (i : ConfigInputs) (cfg : AppConfig)
    (code : String) (exch : ExchangeOutcome) (ui : Except String Unstruct)
    (hinit : initializeAppConfig i = (cfg, none)) (hcode : code ≠ "") :
    cfg.State ≠ "" ∧
    Event.respondError 400 "unexpected state parameter value in callback"
        ("expected: " ++ cfg.State ++ ", got: " ++ "")
      ∈ oauth2CodeCallback cfg true code "" exch ui ∧
    ∀ e ∈ oauth2CodeCallback cfg true code "" exch ui, isExchangeCall e = false := by
  have h1 : (initializeAppConfig i).1 = cfg := congrArg Prod.fst hinit
  have h2 : validateConfig (initializeAppConfig i).1 = none := congrArg Prod.snd hinit
  have hv : validateConfig cfg = none := h1 ▸ h2
  have hstate : cfg.State ≠ "" := by
    intro hs
    unfold validateConfig at hv
    repeat' split at hv
    all_goals simp_all
  have hne : ("" : String) ≠ cfg.State := fun h => hstate h.symm
  refine ⟨hstate, ?_, ?_⟩ <;>
    simp [oauth2CodeCallback, reportErrorAndSoftExit, hcode, hne, isExchangeCall]

/-- C5: for a run whose loaded configuration carries a non-empty refresh
token, main never starts the local callback server, performs exactly one
token-exchange call, with the refresh_token grant parameters, and exits 0
when the exchange response carries a non-empty access token. -/
theorem C5_refresh_short_circuit (i : ConfigInputs) (cfg : AppConfig)
    (parseOk : Bool) (code st body : String) (t : OAuthAccessResponse)
    (ui : Except String Unstruct) (ccOk : Bool)
    (hinit : initializeAppConfig i = (cfg, none))
    (hrt : cfg.RefreshToken ≠ "")
    (htok : t.AccessToken ≠ "") :
    Event.serverStart ∉
      (mainRun cfg parseOk code st (.response body (some t)) ui ccOk).2 ∧
    (mainRun cfg parseOk code st (.response body (some t)) ui ccOk).2.filter
        isExchangeCall
      = [Event.exchangeCall (redeemTokensWithRefreshTokenParams cfg cfg.RefreshToken)] ∧
    ("grant_type", "refresh_token")
      ∈ redeemTokensWithRefreshTokenParams cfg cfg.RefreshToken ∧
    ("client_id", cfg.ClientID)
      ∈ redeemTokensWithRefreshTokenParams cfg cfg.RefreshToken ∧
    ("client_secret", cfg.ClientSecret)
      ∈ redeemTokensWithRefreshTokenParams cfg cfg.RefreshToken ∧
    ("refresh_token", cfg.RefreshToken)
      ∈ redeemTokensWithRefreshTokenParams cfg cfg.RefreshToken ∧
    (mainRun cfg parseOk code st (.response body (some t)) ui ccOk).1 = 0 := by
  have h1 : (initializeAppConfig i).1 = cfg := congrArg Prod.fst hinit
  have hccf : cfg.ClientCredFlow = false := by
    rw [← h1]
    simp [initializeAppConfig]
  cases ui <;>
    by_cases hu : cfg.UserInfo <;>
      simp [mainRun, hccf, hrt, refreshTokens, redeemTokens, htok,
        fetchUserInfoStep, hu, isExchangeCall, redeemTokensWithRefreshTokenParams]

/-- A concrete configuration-input set carrying a refresh token. -/
def refreshInputs : ConfigInputs :=
  { authEndpoint := "https://idp.example/authorize"
    callbackPath := "/cb"
    clientID := "abc"
    clientSecretFlag := "sec"
    clientSecretEnv := ""
    codeChallenge := ""
    codeVerifier := ""
    metadataEndpoint := ""
    noBrowser := true
    pkce := false
    port := 8080
    tokenEndpoint := "https://idp.example/token"
    refreshToken := "rt-1"
    state := "xyz"
    scope := "openid,offline_access"
    verbose := false
    userInfo := false
    userInfoEndpoint := ""
    metaAuthEndpoint := ""
    metaTokenEndpoint := ""
    metaUserInfoEndpoint := ""
    randState := "0123456789abcdef"
    randPkceVerifier := ""
    challengeOf := fun _ => "" }

/-- The configuration initializeAppConfig builds from refreshInputs. -/
def refreshConfig : AppConfig := (initializeAppConfig refreshInputs).1

/-- Concrete run of C9: a configuration accepted by initializeAppConfig has
a non-empty State string. -/
theorem C9_witness :
    initializeAppConfig refreshInputs = (refreshConfig, none) ∧
    ("XYZ123" : String) ≠ "" ∧
    refreshConfig.State ≠ "" :=
  ⟨rfl, by decide,
   (C9_nonempty_state_guards_callback refreshInputs refreshConfig "XYZ123"
      (.transportError "") (.error "") rfl (by decide)).1⟩

/-- Concrete run of C5: the refresh configuration loads without error and
the run exits 0 on a non-empty access token. -/
theorem C5_witness :
    initializeAppConfig refreshInputs = (refreshConfig, none) ∧
    refreshConfig.RefreshToken ≠ "" ∧
    ({ AccessToken := "AT1" } : OAuthAccessResponse).AccessToken ≠ "" ∧
    (mainRun refreshConfig true "" "" (.response "b" (some { AccessToken := "AT1" }))
        (.error "no") true).1 = 0 :=
  ⟨rfl, by decide, by decide,
   (C5_refresh_short_circuit refreshInputs refreshConfig true "" "" "b"
      { AccessToken := "AT1" } (.error "no") true rfl (by decide)
      (by decide)).2.2.2.2.2.2⟩

/-- C8: with userinfo requested, a fetchUserInfo failure never fails the
flow: in the authorization-code callback the warning is logged, the token
set is still printed and the run records exit code 0, the same as when
userinfo succeeds; in the refresh sub-flow refreshTokens likewise logs the
warning, prints the token set and returns no error (so main exits 0),
exactly as when userinfo succeeds. -/
theorem C8_userinfo_best_effort (cfg : AppConfig) (code body m : String)
    (v : Unstruct) (t : OAuthAccessResponse)
    (hui : cfg.UserInfo = true) (hcode : code ≠ "") (htok : t.AccessToken ≠ "") :
    (oauth2CodeCallback cfg true code cfg.State (.response body (some t))
        (.error m)).any isPrintTokensEvent = true ∧
    Event.warnLog ("WARNING: " ++ m)
      ∈ oauth2CodeCallback cfg true code cfg.State (.response body (some t)) (.error m) ∧
    finalExitCode
        (oauth2CodeCallback cfg true code cfg.State (.response body (some t)) (.error m))
      = 0 ∧
    finalExitCode
        (oauth2CodeCallback cfg true code cfg.State (.response body (some t)) (.ok v))
      = 0 ∧
    (oauth2CodeCallback cfg true code cfg.State (.response body (some t))
        (.ok v)).any isPrintTokensEvent = true ∧
    (refreshTokens cfg cfg.RefreshToken (.response body (some t)) (.error m)).1 = none ∧
    (refreshTokens cfg cfg.RefreshToken (.response body (some t)) (.error m)).2.any
        isPrintTokensEvent = true ∧
    Event.warnLog ("WARNING: " ++ m)
      ∈ (refreshTokens cfg cfg.RefreshToken (.response body (some t)) (.error m)).2 ∧
    (refreshTokens cfg cfg.RefreshToken (.response body (some t)) (.ok v)).1 = none ∧
    (refreshTokens cfg cfg.RefreshToken (.response body (some t)) (.ok v)).2.any
        isPrintTokensEvent = true := by
  simp [oauth2CodeCallback, refreshTokens, redeemTokens, fetchUserInfoStep,
    reportErrorAndSoftExit, hui, hcode, htok, finalExitCode, softExitRecord,
    isPrintTokensEvent]

/-- A userinfo-enabled variant of the sample configuration. -/
def userInfoConfig : AppConfig :=
  { sampleConfig with UserInfo := true, UserInfoEndpoint := "https://idp.example/userinfo" }

/-- Concrete run of C8: with userinfo enabled, a failed fetchUserInfo still
yields exit code 0 in the callback flow and no error in the refresh flow. -/
theorem C8_witness :
    userInfoConfig.UserInfo = true ∧
    finalExitCode
        (oauth2CodeCallback userInfoConfig true "XYZ123" userInfoConfig.State
          (.response "b" (some { AccessToken := "AT1" })) (.error "boom"))
      = 0 ∧
    (refreshTokens userInfoConfig userInfoConfig.RefreshToken
        (.response "b" (some { AccessToken := "AT1" })) (.error "boom")).1 = none :=
  ⟨rfl,
   (C8_userinfo_best_effort userInfoConfig "XYZ123" "b" "boom" ⟨[]⟩
      { AccessToken := "AT1" } rfl (by decide) (by decide)).2.2.1,
   (C8_userinfo_best_effort userInfoConfig "XYZ123" "b" "boom" ⟨[]⟩
      { AccessToken := "AT1" } rfl (by decide) (by decide)).2.2.2.2.2.1⟩

/-- A base64-alphabet character survives the to-url and from-url character
replacements unchanged. -/
theorem b64_char_roundtrip (c : Char) (hc : isB64Char c = true) :
    repDash (repUnderscore (repPlus (repSlash c))) = c := by
  by_cases h1 : c = '/'
  · subst h1; rfl
  · by_cases h2 : c = '+'
    · subst h2; rfl
    · have h3 : c ≠ '_' := by rintro rfl; exact absurd hc (by decide)
      have h4 : c ≠ '-' := by rintro rfl; exact absurd hc (by decide)
      simp [repSlash, repPlus, repUnderscore, repDash, h1, h2, h3, h4]

/-- The to-url character replacements never produce the padding character
from a base64-alphabet character. -/
theorem b64_char_maps_ne_pad (c : Char) (hc : isB64Char c = true) :
    repPlus (repSlash c) ≠ '=' := by
  by_cases h1 : c = '/'
  · subst h1; decide
  · by_cases h2 : c = '+'
    · subst h2; decide
    · have he : repPlus (repSlash c) = c := by simp [repSlash, repPlus, h1, h2]
      rw [he]
      rintro rfl
      exact absurd hc (by decide)

/-- On a body of base64-alphabet characters followed by padding characters,
Base64ToBase64Url maps the body characterwise and deletes the padding. -/
theorem b64url_of_body_pad (body pad : List Char)
    (hb : ∀ c ∈ body, isB64Char c = true) (hp : ∀ c ∈ pad, c = '=') :
    Base64ToBase64Url (body ++ pad) = body.map (fun c => repPlus (repSlash c)) := by
  unfold Base64ToBase64Url
  rw [List.map_append, List.map_append, List.filter_append]
  have h1 : ((body.map repSlash).map repPlus).filter (fun c => c != '=')
      = (body.map repSlash).map repPlus := by
    rw [List.filter_eq_self]
    intro a ha
    rw [List.map_map] at ha
    obtain ⟨c, hcmem, rfl⟩ := List.mem_map.mp ha
    simpa using b64_char_maps_ne_pad c (hb c hcmem)
  have h2 : ((pad.map repSlash).map repPlus).filter (fun c => c != '=') = [] := by
    rw [List.filter_eq_nil_iff]
    intro a ha
    rw [List.map_map] at ha
    obtain ⟨c, hcmem, rfl⟩ := List.mem_map.mp ha
    have : c = '=' := hp c hcmem
    subst this
    decide
  rw [h1, h2, List.append_nil, List.map_map]
  rfl

/-- Applying the from-url character replacements to the to-url image of a
base64-alphabet body restores the body. -/
theorem b64_body_roundtrip (body : List Char) (hb : ∀ c ∈ body, isB64Char c = true) :
    ((body.map (fun c => repPlus (repSlash c))).map repUnderscore).map repDash
      = body := by
  induction body with
  | nil => rfl
  | cons a t ih =>
      simp only [List.map_cons]
      rw [b64_char_roundtrip a (hb a (by simp)),
        ih (fun c hc => hb c (List.mem_cons_of_mem a hc))]

/-- A list of at most two characters all equal to '=' is one of the three
padding shapes. -/
theorem pad_shape (l : List Char) (h : ∀ c ∈ l, c = '=') (hlen : l.length ≤ 2) :
    l = [] ∨ l = ['='] ∨ l = ['=', '='] := by
  match l, h, hlen with
  | [], _, _ => exact Or.inl rfl
  | [a], h, _ =>
      exact Or.inr (Or.inl (by rw [h a (by simp)]))
  | [a, b], h, _ =>
      exact Or.inr (Or.inr (by rw [h a (by simp), h b (by simp)]))
  | a :: b :: c :: rest, _, hlen => simp at hlen

/-- C10: for every well-formed padded standard base64 string, converting to
unpadded base64url with Base64ToBase64Url and back with Base64UrlToBase64
is the identity. -/
theorem C10_base64url_roundtrip (s : List Char) (h : isWellFormedB64 s = true) :
    Base64UrlToBase64 (Base64ToBase64Url s) = s := by
  have hsplit : s.takeWhile (fun c => c != '=') ++ s.dropWhile (fun c => c != '=') = s :=
    List.takeWhile_append_dropWhile _ s
  unfold isWellFormedB64 at h
  simp only [Bool.and_eq_true, List.all_eq_true, decide_eq_true_eq] at h
  obtain ⟨⟨⟨hb, hp⟩, hplen⟩, hlen⟩ := h
  have hp' : ∀ c ∈ s.dropWhile (fun c => c != '='), c = '=' := by
    intro c hc
    have := hp c hc
    simpa using this
  have hb' : ∀ c ∈ s.takeWhile (fun c => c != '='), isB64Char c = true := by
    intro c hc
    exact hb c hc
  rw [← hsplit] at hlen
  rw [List.length_append] at hlen
  rcases pad_shape _ hp' hplen with hpe | hpe | hpe
  · rw [← hsplit, hpe, b64url_of_body_pad _ _ hb' (by simp)]
    rw [hpe, List.length_nil, Nat.add_zero] at hlen
    unfold Base64UrlToBase64
    rw [b64_body_roundtrip _ hb']
    rw [List.append_nil]
    simp [padFor, hlen]
  · rw [← hsplit, hpe, b64url_of_body_pad _ _ hb' (by
      intro c hc
      simpa using hc)]
    rw [hpe] at hlen
    simp only [List.length_cons, List.length_nil] at hlen
    have h3 : (s.takeWhile (fun c => c != '=')).length % 4 = 3 := by omega
    unfold Base64UrlToBase64
    rw [b64_body_roundtrip _ hb']
    simp [padFor, h3]
  · rw [← hsplit, hpe, b64url_of_body_pad _ _ hb' (by
      intro c hc
      simpa using hc)]
    rw [hpe] at hlen
    simp only [List.length_cons, List.length_nil] at hlen
    have h2 : (s.takeWhile (fun c => c != '=')).length % 4 = 2 := by omega
    unfold Base64UrlToBase64
    rw [b64_body_roundtrip _ hb']
    simp [padFor, h2]

/-- Concrete run of C10 on the padded base64 string "TWE=". -/
theorem C10_witness :
    isWellFormedB64 ['T', 'W', 'E', '='] = true ∧
    Base64UrlToBase64 (Base64ToBase64Url ['T', 'W', 'E', '='])
      = ['T', 'W', 'E', '='] :=
  ⟨by decide, C10_base64url_roundtrip ['T', 'W', 'E', '='] (by decide)⟩

end O2Token
